import Mathlib

/-!
Shallow embedding of the cloudboard synchronization bridge (src/main.rs).

The bridge watches the local clipboard, forwards new content to an MQTT
broker over a per-user topic, and writes broker-delivered content back into
the clipboard.  The state owned by the bridge is the field
`Manager.current_content` (the "snapshot"), mutated only by
`Manager::on_clipboard_change`; the inbound MQTT loop in `main` writes the
clipboard but has no access to the `Manager` value (it was moved into the
clipboard watcher thread).
-/

namespace Cloudboard

/-- Decoder for a UTF-8 byte sequence, modelling Rust's
`String::from_utf8` validation (src/main.rs line 127): ASCII bytes stand
alone; 2-byte sequences have lead `0xC2..0xDF`; 3-byte sequences have lead
`0xE0..0xEF` with the overlong (`0xE0`) and surrogate (`0xED`) ranges
excluded via the second byte; 4-byte sequences have lead `0xF0..0xF4` with
overlong (`0xF0`) and beyond-`U+10FFFF` (`0xF4`) ranges excluded via the
second byte; continuation bytes are `0x80..0xBF`.  Returns the decoded
scalar values, or `none` for invalid UTF-8. -/
def utf8DecodeList : List Nat → Option (List Char)
  | [] => some []
  | b :: rest =>
    if b < 0x80 then
      (utf8DecodeList rest).map (fun cs => Char.ofNat b :: cs)
    else if b < 0xC2 then
      none
    else if b < 0xE0 then
      match rest with
      | b1 :: rest2 =>
        if 0x80 ≤ b1 && b1 < 0xC0 then
          (utf8DecodeList rest2).map
            (fun cs => Char.ofNat ((b - 0xC0) * 0x40 + (b1 - 0x80)) :: cs)
        else none
      | [] => none
    else if b < 0xF0 then
      match rest with
      | b1 :: b2 :: rest3 =>
        if ((if b == 0xE0 then 0xA0 else 0x80) ≤ b1
              && b1 < (if b == 0xED then 0xA0 else 0xC0))
            && (0x80 ≤ b2 && b2 < 0xC0) then
          (utf8DecodeList rest3).map
            (fun cs =>
              Char.ofNat ((b - 0xE0) * 0x1000 + (b1 - 0x80) * 0x40 + (b2 - 0x80)) :: cs)
        else none
      | _ => none
    else if b < 0xF5 then
      match rest with
      | b1 :: b2 :: b3 :: rest4 =>
        if (((if b == 0xF0 then 0x90 else 0x80) ≤ b1
              && b1 < (if b == 0xF4 then 0x90 else 0xC0))
            && (0x80 ≤ b2 && b2 < 0xC0))
            && (0x80 ≤ b3 && b3 < 0xC0) then
          (utf8DecodeList rest4).map
            (fun cs =>
              Char.ofNat ((b - 0xF0) * 0x40000 + (b1 - 0x80) * 0x1000
                + (b2 - 0x80) * 0x40 + (b3 - 0x80)) :: cs)
        else none
      | _ => none
    else
      none

/-- Model of `String::from_utf8(publish.payload.to_vec())` (src/main.rs
line 127): `some` of the decoded text on valid UTF-8, `none` otherwise. -/
def from_utf8 (payload : List Nat) : Option String :=
  (utf8DecodeList payload).map (fun cs => String.mk cs)

/-- MQTT quality-of-service levels used by the bridge (src/main.rs lines
108 and 114). -/
inductive QoS where
  | atMostOnce
  | atLeastOnce
deriving DecidableEq

/-- The `Manager` struct (src/main.rs lines 30-34), restricted to the state
the transition rules touch: `current_content` is the bridge's snapshot of
the last clipboard text it has seen.  The `publish_sender` channel endpoint
and the clipboard handle are modelled as parameters of the step functions
below. -/
structure Manager where
  current_content : String
deriving DecidableEq

/-- `Manager::new` (src/main.rs lines 37-43): the snapshot starts as the
empty string (`String::new()`). -/
def Manager.new : Manager :=
  { current_content := "" }

/-- `Manager::on_clipboard_change` (src/main.rs lines 47-58).
`get_text` is the result of `ctx.get_text()`: `none` when the clipboard
read fails (non-text content), `some text` otherwise.  `sendOk` tells
whether `publish_sender.send` succeeds (it fails only when the publish
thread has exited and dropped the receiver); on failure the error is only
logged.  Returns the updated manager and the list of contents placed on
the publish channel by this call (empty or a singleton). -/
def on_clipboard_change (m : Manager) (get_text : Option String) (sendOk : Bool) :
    Manager × List String :=
  match get_text with
  | none => (m, [])
  | some text =>
    if text ≠ m.current_content then
      let m2 : Manager := { current_content := text }
      if sendOk then (m2, [text]) else (m2, [])
    else
      (m, [])

/-- A sequence of clipboard-change notifications delivered to
`Manager::on_clipboard_change`, each with its `ctx.get_text()` result and
with `publish_sender.send` succeeding.  Returns the final manager and the
contents placed on the publish channel, in detection order (the mpsc
channel of src/main.rs line 84 is FIFO). -/
def runOutbound : Manager → List (Option String) → Manager × List String
  | m, [] => (m, [])
  | m, r :: rest =>
    let s := on_clipboard_change m r true
    let t := runOutbound s.1 rest
    (t.1, s.2 ++ t.2)

/-- The publish thread (src/main.rs lines 111-121): receives queued
contents in FIFO channel order and publishes each in turn; a publish
error is logged and breaks the loop.  `publishOk` tells whether
`client.publish` succeeds on a given content.  Returns the contents
actually published, in order. -/
def publishLoop : List String → (String → Bool) → List String
  | [], _ => []
  | c :: rest, publishOk =>
    if publishOk c then c :: publishLoop rest publishOk else []

/-- Handling of one `Incoming::Publish` event in the main loop
(src/main.rs lines 126-133): decode the payload as UTF-8; if decoding
fails nothing further happens; otherwise `ctx.set_text(content)` is
called.  `writeOk` tells whether the clipboard write succeeds; a write
error is only logged, leaving the clipboard unchanged.  Returns the new
clipboard text and the list of `set_text` calls made (empty or a
singleton). -/
def inboundStep (clipboard : String) (payload : List Nat) (writeOk : Bool) :
    String × List String :=
  match from_utf8 payload with
  | none => (clipboard, [])
  | some content =>
    if writeOk then (content, [content]) else (clipboard, [content])

/-- One event of the connection event stream consumed by the main loop
(src/main.rs lines 124-140): an incoming broker publish, any other
notification (matched by the catch-all arm), or a connection-level
error. -/
inductive MqttEvent where
  | incomingPublish (payload : List Nat)
  | other
  | connErr
deriving DecidableEq

/-- The main read loop (src/main.rs lines 124-140) over a stream of
connection events, with clipboard writes succeeding: incoming publishes
run `inboundStep`, connection-level errors are logged and skipped, and
every other notification is ignored.  Returns the final clipboard text
and all `set_text` calls in order.  The stream is the transport's event
iterator; it ends exactly when the connection is lost. -/
def inboundLoop : String → List MqttEvent → String × List String
  | clipboard, [] => (clipboard, [])
  | clipboard, MqttEvent.incomingPublish p :: rest =>
    let r := inboundStep clipboard p true
    let t := inboundLoop r.1 rest
    (t.1, r.2 ++ t.2)
  | clipboard, MqttEvent.other :: rest => inboundLoop clipboard rest
  | clipboard, MqttEvent.connErr :: rest => inboundLoop clipboard rest

/-- Result of the main thread after the subscribe call: final clipboard
text, the `set_text` calls performed, and whether the watcher shutdown
channel was signalled before returning. -/
structure ProcessResult where
  clipboard : String
  writes : List String
  watcherStopped : Bool
deriving DecidableEq

/-- The tail of `main` (src/main.rs lines 124-143): drain the connection
event stream to exhaustion (the `for` loop ends exactly when the
connection iterator is exhausted, i.e. the connection is lost), then
signal the watcher shutdown channel and return; no reconnection is
attempted. -/
def runMain (clipboard : String) (events : List MqttEvent) : ProcessResult :=
  let r := inboundLoop clipboard events
  { clipboard := r.1, writes := r.2, watcherStopped := true }

/-- The broker topic (src/main.rs line 107):
`format!("clipboard/{}", args.user)`. -/
def topic (user : String) : String :=
  "clipboard/" ++ user

/-- A subscribe request as issued by the bridge. -/
structure SubscribeCall where
  topic : String
  qos : QoS
deriving DecidableEq

/-- A publish request as issued by the publish thread. -/
structure PublishCall where
  topic : String
  qos : QoS
  content : String
deriving DecidableEq

/-- The subscribe call of src/main.rs line 108:
`client.subscribe(topic.clone(), QoS::AtMostOnce)`. -/
def subscribeCall (user : String) : SubscribeCall :=
  { topic := topic user, qos := QoS.atMostOnce }

/-- A publish call of src/main.rs line 114:
`client.publish(topic.clone(), QoS::AtLeastOnce, false, content)`. -/
def publishCall (user : String) (content : String) : PublishCall :=
  { topic := topic user, qos := QoS.atLeastOnce, content := content }

/-- Combined state of one bridge instance: the watcher thread's `Manager`,
the clipboard text, the contents queued on the publish channel, and the
`set_text` calls made by the inbound path. -/
structure BridgeState where
  manager : Manager
  clipboard : String
  outQueue : List String
  writes : List String
deriving DecidableEq

/-- Bridge state at startup (src/main.rs lines 84-93): empty snapshot,
empty clipboard, nothing queued. -/
def bridgeInit : BridgeState :=
  { manager := Manager.new, clipboard := "", outQueue := [], writes := [] }

/-- A clipboard-change notification delivered to the watcher thread: runs
`Manager::on_clipboard_change` (src/main.rs lines 47-58) with
`ctx.get_text()` returning the current clipboard text (or failing when
`readOk` is false) and the channel send succeeding. -/
def watcherNotify (s : BridgeState) (readOk : Bool) : BridgeState :=
  let r := on_clipboard_change s.manager (if readOk then some s.clipboard else none) true
  { s with manager := r.1, outQueue := s.outQueue ++ r.2 }

/-- An inbound broker publish handled by the main loop (src/main.rs lines
126-134).  The loop owns only the clipboard handle `ctx`; the `Manager`
value was moved into the clipboard watcher at line 89, so the inbound
path cannot and does not touch `manager.current_content`. -/
def inboundPublish (s : BridgeState) (payload : List Nat) (writeOk : Bool) : BridgeState :=
  let r := inboundStep s.clipboard payload writeOk
  { s with clipboard := r.1, writes := s.writes ++ r.2 }

example : from_utf8 [104, 101, 108, 108, 111] = some "hello" := by decide

example : from_utf8 [255] = none := by decide

example : from_utf8 [0xC3, 0xA9] = some "é" := by decide

example : from_utf8 [0xED, 0xA0, 0x80] = none := by decide

example : from_utf8 [0xC0, 0x80] = none := by decide

/-- C1, evaluated at the failing input: after the inbound rule writes the
decoded payload "hello" (UTF-8 bytes `[104,101,108,108,111]`) to the
clipboard, the bridge's snapshot `Manager.current_content` still holds its
old value `""` — the inbound path of src/main.rs lines 126-134 never
updates it, as the `Manager` was moved into the watcher thread — so the
clipboard-change notification caused by that very write produces one
further outbound message `"hello"` (a network echo) instead of the zero
the loop-prevention invariant requires. -/
theorem echo_after_inbound_hello :
    (inboundPublish bridgeInit [104, 101, 108, 108, 111] true).clipboard = "hello"
    ∧ (inboundPublish bridgeInit [104, 101, 108, 108, 111] true).manager.current_content = ""
    ∧ (watcherNotify (inboundPublish bridgeInit [104, 101, 108, 108, 111] true) true).outQueue
        = ["hello"] := by
  decide

/-- C2: starting from any snapshot `s` with `a ≠ s`, feeding clipboard
contents `a` then `b` with `a ≠ b` to the outbound rule queues exactly the
two messages `a` then `b` in that order, and the publish thread publishes
the queue in the same FIFO order (when every publish succeeds). -/
theorem outbound_two_changes_fifo (s a b : String) (ha : a ≠ s) (hab : a ≠ b) :
    (runOutbound { current_content := s } [some a, some b]).2 = [a, b]
    ∧ publishLoop [a, b] (fun _ => true) = [a, b] := by
  constructor
  · simp [runOutbound, on_clipboard_change, ha, Ne.symm hab]
  · simp [publishLoop]

/-- Witness for C2 at snapshot `""`, contents `"x"` then `"y"`. -/
theorem outbound_two_changes_fifo_witness :
    (runOutbound { current_content := "" } [some "x", some "y"]).2 = ["x", "y"]
    ∧ publishLoop ["x", "y"] (fun _ => true) = ["x", "y"] :=
  outbound_two_changes_fifo "" "x" "y" (by decide) (by decide)

/-- C3: the outbound rule is deduplicating and idempotent — a message is
queued exactly when the observed text differs from the snapshot (`[]` when
`t = current_content`, `[t]` otherwise); feeding the same content twice in
a row queues it at most once (exactly once when it is new); and observing
text equal to the snapshot is a complete no-op. -/
theorem outbound_dedup_idempotent (m : Manager) (t : String) :
    (on_clipboard_change m (some t) true).2 = (if t = m.current_content then [] else [t])
    ∧ (runOutbound m [some t, some t]).2 = (if t = m.current_content then [] else [t])
    ∧ on_clipboard_change m (some m.current_content) true = (m, []) := by
  refine ⟨?_, ?_, ?_⟩ <;>
    by_cases h : t = m.current_content <;>
      simp [on_clipboard_change, runOutbound, h]

/-- C4: a connection-level error event on the inbound stream is logged and
skipped — the loop's result over any stream with the error removed is
identical, so only that event is dropped and processing continues — and
the loop terminates exactly when the event stream ends (connection lost),
after which the watcher is stopped and `main` returns, with no
reconnection. -/
theorem conn_error_dropped_nonfatal (c : String) (pre post : List MqttEvent) :
    inboundLoop c (pre ++ MqttEvent.connErr :: post) = inboundLoop c (pre ++ post)
    ∧ runMain c (pre ++ MqttEvent.connErr :: post) = runMain c (pre ++ post)
    ∧ (runMain c (pre ++ MqttEvent.connErr :: post)).watcherStopped = true := by
  have h : ∀ (c : String),
      inboundLoop c (pre ++ MqttEvent.connErr :: post) = inboundLoop c (pre ++ post) := by
    induction pre with
    | nil => intro c; simp [inboundLoop]
    | cons e rest ih => intro c; cases e <;> simp [inboundLoop, ih]
  exact ⟨h c, by simp [runMain, h c], by simp [runMain]⟩

/-- C5: an inbound message whose payload is not valid UTF-8 performs zero
clipboard writes and leaves the clipboard unchanged; the step returns
normally (it is total), so processing continues. -/
theorem invalid_utf8_dropped (clipboard : String) (payload : List Nat) (writeOk : Bool)
    (h : from_utf8 payload = none) :
    inboundStep clipboard payload writeOk = (clipboard, []) := by
  simp [inboundStep, h]

/-- Witness for C5 at the invalid payload `[255]`. -/
theorem invalid_utf8_dropped_witness :
    inboundStep "keep" [255] true = ("keep", []) :=
  invalid_utf8_dropped "keep" [255] true (by decide)

/-- C6: the snapshot is initialized to the empty string at bridge start,
so the first observed non-empty clipboard content is treated as new and
forwarded as an outbound message. -/
theorem snapshot_starts_empty_first_forwarded (t : String) (h : t ≠ "") :
    Manager.new.current_content = ""
    ∧ (on_clipboard_change Manager.new (some t) true).2 = [t] := by
  refine ⟨rfl, ?_⟩
  simp [on_clipboard_change, Manager.new, h]

/-- Witness for C6 at first content `"abc"`. -/
theorem snapshot_starts_empty_first_forwarded_witness :
    Manager.new.current_content = ""
    ∧ (on_clipboard_change Manager.new (some "abc") true).2 = ["abc"] :=
  snapshot_starts_empty_first_forwarded "abc" (by decide)

/-- C7: when the clipboard read in the outbound rule fails, the step is a
complete no-op: the manager (snapshot) is unchanged and nothing is queued,
whatever the state of the send channel; no error leaves the handler. -/
theorem read_failure_noop (m : Manager) (sendOk : Bool) :
    on_clipboard_change m none sendOk = (m, []) :=
  rfl

/-- C8: the broker topic is derived deterministically as
`"clipboard/" ++ user`, and the identical topic string is used for the
subscribe call and for every publish call of the instance. -/
theorem topic_deterministic_shared (user content : String) :
    topic user = "clipboard/" ++ user
    ∧ (subscribeCall user).topic = topic user
    ∧ (publishCall user content).topic = (subscribeCall user).topic :=
  ⟨rfl, rfl, rfl⟩

/-- C9: when a new change is detected but the channel send fails, the
snapshot has already been assigned the new text and the failure is only
logged: the step ends with `current_content = t` and nothing queued, so
the change is recorded as seen but never published. -/
theorem send_failure_snapshot_updated_unpublished (m : Manager) (t : String)
    (h : t ≠ m.current_content) :
    on_clipboard_change m (some t) false = ({ current_content := t }, []) := by
  simp [on_clipboard_change, h]

/-- Witness for C9 at the empty snapshot and content `"a"`. -/
theorem send_failure_snapshot_updated_unpublished_witness :
    on_clipboard_change Manager.new (some "a") false = ({ current_content := "a" }, []) :=
  send_failure_snapshot_updated_unpublished Manager.new "a" (by decide)

/-- C10: the inbound rule performs no deduplication — every inbound
message that decodes as valid UTF-8 triggers exactly one clipboard write
with the decoded content, regardless of the current clipboard text and of
whether the write succeeds. -/
theorem inbound_no_dedup (clipboard : String) (payload : List Nat) (writeOk : Bool)
    (content : String) (h : from_utf8 payload = some content) :
    (inboundStep clipboard payload writeOk).2 = [content] := by
  cases writeOk <;> simp [inboundStep, h]

/-- Witness for C10: the payload `[120]` decodes to `"x"`, equal to the
current clipboard text, and the write is still triggered. -/
theorem inbound_no_dedup_witness :
    (inboundStep "x" [120] true).2 = ["x"] :=
  inbound_no_dedup "x" [120] true "x" (by decide)

end Cloudboard
